import Mathlib

/-
  Verification of src/src/mappers/observation_mapper.py
  (health-interop-gateway): the single function map_temperature_to_fhir,
  which builds a FHIR Observation resource for a body-temperature
  measurement and serializes it as pretty-printed JSON (indent=2).

  Embedding notes:
  - Python floats are modelled by PyFloat: a finite rational value, NaN,
    or a signed infinity.  The mapper only stores the value and
    serializes it, so this idealization is faithful for every claim.
  - Observation.construct() (pydantic construct) performs NO validation:
    it just allocates the record with no fields set.  The subsequent
    attribute assignments store the given values.  This is mirrored by
    an Observation structure of Option-valued fields.
  - observation.json(indent=2) is modelled as: convert the record to a
    JSON tree (fields that are unset are omitted, as fhir.resources'
    dict() with exclude_none does; top-level key order follows pydantic
    v1's __dict__ insertion order: the resourceType discriminator, the
    pre-populated optional fields category, subject, valueQuantity in
    their class-declaration order, then the required fields status and
    code appended in assignment order), then render it the way Python's
    json.dumps renders with the given indent (item separator comma +
    newline, key separator colon + space, ensure_ascii escaping,
    NaN/Infinity rendered as their Python tokens).  No theorem below
    depends on this top-level order: the shape claims are stated
    through order-insensitive lookups, a key-set permutation and
    input-independence of the key list.  The serializer is modelled as
    Except-valued so that statements about a raised SerializationError
    are statable; on this fixed record shape it never fails.
  - There is no raise and no try/except anywhere in the source, so the
    mapper itself is the serializer's result, wrapped in no handler.
-/

namespace RNDS

/-- Model of a Python float value as the mapper observes it: a finite
value (idealized as a rational), NaN, or an infinity. -/
inductive PyFloat where
  | finite (val : Rat)
  | nan
  | posInf
  | negInf
deriving DecidableEq, Repr

/-- Python math.isfinite: true exactly on finite values. -/
def PyFloat.isFinite : PyFloat → Bool
  | .finite _ => true
  | _ => false

/-- Decimal digit character. -/
def digitChar (n : Nat) : Char := Char.ofNat (48 + n)

/-- Decimal expansion of the fractional part of a nonnegative rational,
one digit per step, stopping at zero or when the fuel runs out (Python
float repr never needs more than 17 significant digits). -/
def fracDigits : Nat → Rat → String
  | 0, _ => ""
  | fuel + 1, q =>
    if q = 0 then ""
    else
      let q10 := q * 10
      let d := q10.floor
      String.singleton (digitChar d.toNat) ++ fracDigits fuel (q10 - d)

/-- How Python's json.dumps renders a float: the float repr for finite
values (modelled as the plain decimal expansion of the rational, with
a trailing .0 for integral values), and the non-standard JSON tokens
NaN / Infinity / -Infinity for the non-finite values (allow_nan is
True by default). -/
def floatRepr : PyFloat → String
  | .nan => "NaN"
  | .posInf => "Infinity"
  | .negInf => "-Infinity"
  | .finite q =>
    let sign := if q < 0 then "-" else ""
    let a := if q < 0 then -q else q
    let ip : Nat := a.floor.toNat
    let fp := a - a.floor
    let fracs := if fp = 0 then "0" else fracDigits 17 fp
    sign ++ toString ip ++ "." ++ fracs

/-- JSON tree, as json.dumps receives it from the pydantic dict:
object fields are an ordered association list. -/
inductive Json where
  | jstr (s : String)
  | jnum (x : PyFloat)
  | jarr (items : List Json)
  | jobj (fields : List (String × Json))
deriving Repr

/-- Hexadecimal digit character (lowercase, as json.dumps emits). -/
def hexDigit (n : Nat) : Char :=
  if n < 10 then Char.ofNat (48 + n) else Char.ofNat (97 + (n - 10))

/-- Four-digit lowercase hex, for \uXXXX escapes. -/
def hex4 (n : Nat) : String :=
  String.mk [hexDigit (n / 4096 % 16), hexDigit (n / 256 % 16),
             hexDigit (n / 16 % 16), hexDigit (n % 16)]

/-- json.dumps character escaping with ensure_ascii=True: quote,
backslash and the short control escapes, \uXXXX for other control and
all non-ASCII characters (surrogate pairs beyond the BMP), everything
in the printable ASCII range 0x20..0x7e kept verbatim. -/
def escapeChar (c : Char) : String :=
  let n := c.toNat
  if c = '"' then "\\\""
  else if c = '\\' then "\\\\"
  else if n = 8 then "\\b"
  else if n = 9 then "\\t"
  else if n = 10 then "\\n"
  else if n = 12 then "\\f"
  else if n = 13 then "\\r"
  else if n < 32 then "\\u" ++ hex4 n
  else if n < 127 then String.singleton c
  else if n < 65536 then "\\u" ++ hex4 n
  else
    let m := n - 65536
    "\\u" ++ hex4 (55296 + m / 1024) ++ "\\u" ++ hex4 (56320 + m % 1024)

/-- json.dumps string rendering: escaped content between quotes. -/
def jsonEscape (s : String) : String :=
  "\"" ++ String.join (s.toList.map escapeChar) ++ "\""

/-- Indentation padding emitted by json.dumps: width * level spaces. -/
def pad (w lvl : Nat) : String := String.mk (List.replicate (w * lvl) ' ')

mutual

/-- Rendering of a JSON tree exactly as Python's json.dumps(obj,
indent=w) lays it out: objects and arrays open a line per element at
the deeper indent level, elements are separated by a comma + newline,
keys are followed by a colon + space, empty containers stay on one
line, and object keys keep their association-list order (sort_keys is
False by default). -/
def renderJson (w lvl : Nat) : Json → String
  | .jstr s => jsonEscape s
  | .jnum x => floatRepr x
  | .jarr [] => "[]"
  | .jarr (x :: xs) =>
      "[\n" ++ pad w (lvl + 1) ++ renderJson w (lvl + 1) x
        ++ renderItems w (lvl + 1) xs ++ "\n" ++ pad w lvl ++ "]"
  | .jobj [] => "\x7b\x7d"
  | .jobj ((k, v) :: fs) =>
      "\x7b\n" ++ pad w (lvl + 1) ++ jsonEscape k ++ ": "
        ++ renderJson w (lvl + 1) v
        ++ renderFields w (lvl + 1) fs ++ "\n" ++ pad w lvl ++ "\x7d"

/-- Remaining array elements, each preceded by comma, newline, pad. -/
def renderItems (w lvl : Nat) : List Json → String
  | [] => ""
  | x :: xs => ",\n" ++ pad w lvl ++ renderJson w lvl x ++ renderItems w lvl xs

/-- Remaining object fields, each preceded by comma, newline, pad. -/
def renderFields (w lvl : Nat) : List (String × Json) → String
  | [] => ""
  | (k, v) :: fs =>
      ",\n" ++ pad w lvl ++ jsonEscape k ++ ": " ++ renderJson w lvl v
        ++ renderFields w lvl fs

end

/-- Field access on a JSON object (None on other node kinds). -/
def Json.lookup : Json → String → Option Json
  | .jobj fs, k => fs.lookup k
  | _, _ => none

/-- Two-step field access: j[k1][k2]. -/
def Json.lookup2 (j : Json) (k1 k2 : String) : Option Json :=
  (j.lookup k1).bind (fun v => v.lookup k2)

/-- Element access on a JSON array (None on other node kinds). -/
def Json.atIdx : Json → Nat → Option Json
  | .jarr xs, i => xs.get? i
  | _, _ => none

/-- Top-level key list of a JSON object, in serialization order. -/
def Json.keys : Json → List String
  | .jobj fs => fs.map Prod.fst
  | _ => []

/-- A coding entry of a CodeableConcept, as the source writes it:
a dict with keys system, code, display in that order. -/
structure Coding where
  system : String
  code : String
  display : String
deriving DecidableEq, Repr

/-- fhir.resources CodeableConcept, as used by the source: only the
coding list is set. -/
structure CodeableConcept where
  coding : List Coding
deriving DecidableEq, Repr

/-- The subject reference dict: a single key reference. -/
structure Reference where
  reference : String
deriving DecidableEq, Repr

/-- The valueQuantity dict, keys in the source's insertion order:
value, unit, system, code. -/
structure Quantity where
  value : PyFloat
  unit : String
  system : String
  code : String
deriving DecidableEq, Repr

/-- The Observation record: exactly the fields the mapper sets.  All
start unset (pydantic construct() performs no validation and sets no
field), and are filled by the assignments in the source. -/
structure Observation where
  status : Option String
  category : Option (List CodeableConcept)
  code : Option CodeableConcept
  subject : Option Reference
  valueQuantity : Option Quantity
deriving DecidableEq, Repr

/-- Observation.construct(): allocates the record with nothing set and
no validation performed. -/
def Observation.construct : Observation :=
  { status := none, category := none, code := none,
    subject := none, valueQuantity := none }

/-- JSON form of a CodeableConcept as serialized: the coding list of
system/code/display dicts. -/
def CodeableConcept.toJson (cc : CodeableConcept) : Json :=
  .jobj [("coding", .jarr (cc.coding.map fun c =>
    .jobj [("system", .jstr c.system), ("code", .jstr c.code),
           ("display", .jstr c.display)]))]

/-- The dict the resource library hands to the JSON serializer: each
SET field, unset fields omitted (exclude_none), plus the resourceType
discriminator fhir.resources always emits.  Key order is pydantic v1's
__dict__ insertion order: construct() pre-populates the optional
fields at their class-declaration positions (fhir.resources declares
fields alphabetically, so category before subject before
valueQuantity), while the required fields status and code are absent
until assigned and so are appended in the source's assignment order,
status then code, after the pre-populated ones. -/
def Observation.toJson (o : Observation) : Json :=
  .jobj
    ([("resourceType", Json.jstr "Observation")]
      ++ (match o.category with
          | some cats => [("category", Json.jarr (cats.map CodeableConcept.toJson))]
          | none => [])
      ++ (match o.subject with
          | some r => [("subject", Json.jobj [("reference", Json.jstr r.reference)])]
          | none => [])
      ++ (match o.valueQuantity with
          | some q => [("valueQuantity", Json.jobj
              [("value", Json.jnum q.value), ("unit", Json.jstr q.unit),
               ("system", Json.jstr q.system), ("code", Json.jstr q.code)])]
          | none => [])
      ++ (match o.status with
          | some s => [("status", Json.jstr s)]
          | none => [])
      ++ (match o.code with
          | some cc => [("code", cc.toJson)]
          | none => []))

/-- The two error kinds the specification names for this component. -/
inductive MapError where
  | invalidInput
  | serializationError
deriving DecidableEq, Repr

/-- observation.json(indent=n): serialize the record.  Modelled as
fallible (Except) because the underlying library call may in general
raise; on any Observation value of this model the rendering is total,
so the call always succeeds. -/
def Observation.json (o : Observation) (indent : Nat) : Except MapError String :=
  .ok (renderJson indent 0 o.toJson)

/-- The record-assembly part of map_temperature_to_fhir, line by line:
construct, then set status, category, code, subject, valueQuantity
exactly as the source does. -/
def build_observation (patient_id : String) (temp_value : PyFloat) : Observation :=
  let observation := Observation.construct
  let observation := { observation with status := some "final" }
  let vitalSigns :=
    [CodeableConcept.mk
      [Coding.mk "http://terminology.hl7.org/CodeSystem/observation-category"
        "vital-signs" "Vital Signs"]]
  let observation := { observation with category := some vitalSigns }
  let bodyTemp :=
    CodeableConcept.mk
      [Coding.mk "http://loinc.org" "8310-5" "Body temperature"]
  let observation := { observation with code := some bodyTemp }
  let subj := Reference.mk ("Patient/" ++ patient_id)
  let observation := { observation with subject := some subj }
  let vq := Quantity.mk temp_value "C" "http://unitsofmeasure.org" "Cel"
  let observation := { observation with valueQuantity := some vq }
  observation

/-- map_temperature_to_fhir(patient_id, temp_value): assemble the
record and return observation.json(indent=2).  The source contains no
input check, no raise and no exception handler: the returned value is
exactly the serializer's result. -/
def map_temperature_to_fhir (patient_id : String) (temp_value : PyFloat) :
    Except MapError String :=
  (build_observation patient_id temp_value).json 2

/-- Chained object access on an optional JSON node. -/
def getK (o : Option Json) (k : String) : Option Json :=
  o.bind fun j => j.lookup k

/-- Chained array access on an optional JSON node. -/
def getI (o : Option Json) (i : Nat) : Option Json :=
  o.bind fun j => j.atIdx i

/-- Helper: the top-level key list of the serialized record is the
same fixed list for every input (the modelled __dict__ insertion
order; only its membership and stability matter to the claims). -/
theorem toJson_keys (pid : String) (t : PyFloat) :
    (build_observation pid t).toJson.keys
      = ["resourceType", "category", "subject", "valueQuantity",
         "status", "code"] := rfl

/-- Claim C1: for every non-empty patient_id and finite temperature,
the serialized record's subject.reference is exactly "Patient/" ++
patient_id (literal substitution, no transformation or escaping) and
valueQuantity.value is exactly the input value (no rounding or
truncation), the output string being the rendering of that record. -/
theorem C1_subject_and_value_exact (pid : String) (t : PyFloat)
    (h1 : pid ≠ "") (h2 : t.isFinite = true) :
    Json.lookup2 (build_observation pid t).toJson "subject" "reference"
      = some (Json.jstr ("Patient/" ++ pid))
  ∧ Json.lookup2 (build_observation pid t).toJson "valueQuantity" "value"
      = some (Json.jnum t)
  ∧ map_temperature_to_fhir pid t
      = .ok (renderJson 2 0 (build_observation pid t).toJson) :=
  ⟨rfl, rfl, rfl⟩

/-- Witness for C1 at the concrete input ("123", 36.5). -/
theorem C1_subject_and_value_exact_witness :
    (("123" : String) ≠ "" ∧ (PyFloat.finite (73/2)).isFinite = true)
  ∧ (Json.lookup2 (build_observation "123" (PyFloat.finite (73/2))).toJson
        "subject" "reference" = some (Json.jstr ("Patient/" ++ "123"))
     ∧ Json.lookup2 (build_observation "123" (PyFloat.finite (73/2))).toJson
        "valueQuantity" "value" = some (Json.jnum (PyFloat.finite (73/2)))
     ∧ map_temperature_to_fhir "123" (PyFloat.finite (73/2))
        = .ok (renderJson 2 0 (build_observation "123" (PyFloat.finite (73/2))).toJson)) :=
  ⟨⟨by decide, rfl⟩,
   C1_subject_and_value_exact "123" (PyFloat.finite (73/2)) (by decide) rfl⟩

/-- Claim C4: for every valid input, status is exactly "final",
category[0].coding[0] is exactly the fixed vital-signs coded term and
code.coding[0] is exactly the fixed LOINC body-temperature coded term,
regardless of the input values. -/
theorem C4_fixed_coded_terms (pid : String) (t : PyFloat)
    (h1 : pid ≠ "") (h2 : t.isFinite = true) :
    Json.lookup (build_observation pid t).toJson "status"
      = some (Json.jstr "final")
  ∧ getI (getK (getI (getK (some (build_observation pid t).toJson)
        "category") 0) "coding") 0
      = some (Json.jobj
          [("system", Json.jstr "http://terminology.hl7.org/CodeSystem/observation-category"),
           ("code", Json.jstr "vital-signs"),
           ("display", Json.jstr "Vital Signs")])
  ∧ getI (getK (getK (some (build_observation pid t).toJson) "code") "coding") 0
      = some (Json.jobj
          [("system", Json.jstr "http://loinc.org"),
           ("code", Json.jstr "8310-5"),
           ("display", Json.jstr "Body temperature")]) :=
  ⟨rfl, rfl, rfl⟩

/-- Witness for C4 at ("abc-789", 39.2). -/
theorem C4_fixed_coded_terms_witness :
    (("abc-789" : String) ≠ "" ∧ (PyFloat.finite (196/5)).isFinite = true)
  ∧ (Json.lookup (build_observation "abc-789" (PyFloat.finite (196/5))).toJson
        "status" = some (Json.jstr "final")
     ∧ getI (getK (getI (getK (some (build_observation "abc-789"
          (PyFloat.finite (196/5))).toJson) "category") 0) "coding") 0
        = some (Json.jobj
            [("system", Json.jstr "http://terminology.hl7.org/CodeSystem/observation-category"),
             ("code", Json.jstr "vital-signs"),
             ("display", Json.jstr "Vital Signs")])
     ∧ getI (getK (getK (some (build_observation "abc-789"
          (PyFloat.finite (196/5))).toJson) "code") "coding") 0
        = some (Json.jobj
            [("system", Json.jstr "http://loinc.org"),
             ("code", Json.jstr "8310-5"),
             ("display", Json.jstr "Body temperature")])) :=
  ⟨⟨by decide, rfl⟩,
   C4_fixed_coded_terms "abc-789" (PyFloat.finite (196/5)) (by decide) rfl⟩

/-- Claim C5: for every valid input the output's valueQuantity always
has unit "C", system "http://unitsofmeasure.org" and code "Cel". -/
theorem C5_unit_fixity (pid : String) (t : PyFloat)
    (h1 : pid ≠ "") (h2 : t.isFinite = true) :
    Json.lookup2 (build_observation pid t).toJson "valueQuantity" "unit"
      = some (Json.jstr "C")
  ∧ Json.lookup2 (build_observation pid t).toJson "valueQuantity" "system"
      = some (Json.jstr "http://unitsofmeasure.org")
  ∧ Json.lookup2 (build_observation pid t).toJson "valueQuantity" "code"
      = some (Json.jstr "Cel") :=
  ⟨rfl, rfl, rfl⟩

/-- Witness for C5 at ("x9", 40.0). -/
theorem C5_unit_fixity_witness :
    (("x9" : String) ≠ "" ∧ (PyFloat.finite 40).isFinite = true)
  ∧ (Json.lookup2 (build_observation "x9" (PyFloat.finite 40)).toJson
        "valueQuantity" "unit" = some (Json.jstr "C")
     ∧ Json.lookup2 (build_observation "x9" (PyFloat.finite 40)).toJson
        "valueQuantity" "system" = some (Json.jstr "http://unitsofmeasure.org")
     ∧ Json.lookup2 (build_observation "x9" (PyFloat.finite 40)).toJson
        "valueQuantity" "code" = some (Json.jstr "Cel")) :=
  ⟨⟨by decide, rfl⟩, C5_unit_fixity "x9" (PyFloat.finite 40) (by decide) rfl⟩

/-- Claim C6: for every valid input the serialized output reproduces
the specification's output shape exactly — each of the five top-level
fields status, category, code, subject, valueQuantity is present with
exactly its literal nested value, the top-level key set is exactly
those five plus the resourceType discriminator (a permutation, no
commitment to the library's ordering), the key order does not depend
on the input (stable), and the output string is the indent-2
pretty-printed rendering of that record. -/
theorem C6_exact_shape (pid : String) (t : PyFloat)
    (h1 : pid ≠ "") (h2 : t.isFinite = true) :
    Json.lookup (build_observation pid t).toJson "status"
      = some (Json.jstr "final")
  ∧ Json.lookup (build_observation pid t).toJson "category"
      = some (Json.jarr
          [Json.jobj [("coding", Json.jarr
            [Json.jobj
              [("system", Json.jstr "http://terminology.hl7.org/CodeSystem/observation-category"),
               ("code", Json.jstr "vital-signs"),
               ("display", Json.jstr "Vital Signs")]])]])
  ∧ Json.lookup (build_observation pid t).toJson "code"
      = some (Json.jobj [("coding", Json.jarr
          [Json.jobj
            [("system", Json.jstr "http://loinc.org"),
             ("code", Json.jstr "8310-5"),
             ("display", Json.jstr "Body temperature")]])])
  ∧ Json.lookup (build_observation pid t).toJson "subject"
      = some (Json.jobj [("reference", Json.jstr ("Patient/" ++ pid))])
  ∧ Json.lookup (build_observation pid t).toJson "valueQuantity"
      = some (Json.jobj
          [("value", Json.jnum t),
           ("unit", Json.jstr "C"),
           ("system", Json.jstr "http://unitsofmeasure.org"),
           ("code", Json.jstr "Cel")])
  ∧ (build_observation pid t).toJson.keys.Perm
      ["resourceType", "status", "category", "code", "subject", "valueQuantity"]
  ∧ (∀ pid2 t2, (build_observation pid2 t2).toJson.keys
      = (build_observation pid t).toJson.keys)
  ∧ map_temperature_to_fhir pid t
      = .ok (renderJson 2 0 (build_observation pid t).toJson) :=
  ⟨rfl, rfl, rfl, rfl, rfl, by rw [toJson_keys]; decide, fun _ _ => rfl, rfl⟩

/-- Witness for C6 at ("42", 36.5). -/
theorem C6_exact_shape_witness :
    (("42" : String) ≠ "" ∧ (PyFloat.finite (73/2)).isFinite = true)
  ∧ (Json.lookup (build_observation "42" (PyFloat.finite (73/2))).toJson "status"
      = some (Json.jstr "final")
  ∧ Json.lookup (build_observation "42" (PyFloat.finite (73/2))).toJson "category"
      = some (Json.jarr
          [Json.jobj [("coding", Json.jarr
            [Json.jobj
              [("system", Json.jstr "http://terminology.hl7.org/CodeSystem/observation-category"),
               ("code", Json.jstr "vital-signs"),
               ("display", Json.jstr "Vital Signs")]])]])
  ∧ Json.lookup (build_observation "42" (PyFloat.finite (73/2))).toJson "code"
      = some (Json.jobj [("coding", Json.jarr
          [Json.jobj
            [("system", Json.jstr "http://loinc.org"),
             ("code", Json.jstr "8310-5"),
             ("display", Json.jstr "Body temperature")]])])
  ∧ Json.lookup (build_observation "42" (PyFloat.finite (73/2))).toJson "subject"
      = some (Json.jobj [("reference", Json.jstr ("Patient/" ++ "42"))])
  ∧ Json.lookup (build_observation "42" (PyFloat.finite (73/2))).toJson "valueQuantity"
      = some (Json.jobj
          [("value", Json.jnum (PyFloat.finite (73/2))),
           ("unit", Json.jstr "C"),
           ("system", Json.jstr "http://unitsofmeasure.org"),
           ("code", Json.jstr "Cel")])
  ∧ (build_observation "42" (PyFloat.finite (73/2))).toJson.keys.Perm
      ["resourceType", "status", "category", "code", "subject", "valueQuantity"]
  ∧ (∀ pid2 t2, (build_observation pid2 t2).toJson.keys
      = (build_observation "42" (PyFloat.finite (73/2))).toJson.keys)
  ∧ map_temperature_to_fhir "42" (PyFloat.finite (73/2))
      = .ok (renderJson 2 0 (build_observation "42" (PyFloat.finite (73/2))).toJson)) :=
  ⟨⟨by decide, rfl⟩, C6_exact_shape "42" (PyFloat.finite (73/2)) (by decide) rfl⟩

/-- Claim C7: the mapper is deterministic — two calls on the same
valid input yield byte-identical output strings. -/
theorem C7_determinism (pid : String) (t : PyFloat)
    (hv : pid ≠ "" ∧ t.isFinite = true) (s1 s2 : String)
    (h1 : map_temperature_to_fhir pid t = .ok s1)
    (h2 : map_temperature_to_fhir pid t = .ok s2) : s1 = s2 := by
  rw [h1] at h2
  injection h2

/-- Witness for C7 at ("123", 36.5): both calls return the rendering
of the built record, so the two output strings coincide. -/
theorem C7_determinism_witness :
    renderJson 2 0 (build_observation "123" (PyFloat.finite (73/2))).toJson
      = renderJson 2 0 (build_observation "123" (PyFloat.finite (73/2))).toJson :=
  C7_determinism "123" (PyFloat.finite (73/2)) ⟨by decide, rfl⟩ _ _ rfl rfl

/-- Claim C8: the mapper returns the serializer's result unchanged —
a serialization error would propagate to the caller as-is, and every
successful call returns the complete rendering of the fully populated
record, never a partial or best-effort output. -/
theorem C8_all_or_nothing (pid : String) (t : PyFloat) :
    map_temperature_to_fhir pid t = (build_observation pid t).json 2
  ∧ (∀ e : MapError, (build_observation pid t).json 2 = .error e →
       map_temperature_to_fhir pid t = .error e)
  ∧ (∀ s : String, map_temperature_to_fhir pid t = .ok s →
       s = renderJson 2 0 (build_observation pid t).toJson
         ∧ (build_observation pid t).toJson.keys.Perm
             ["resourceType", "status", "category", "code", "subject",
              "valueQuantity"]) := by
  refine ⟨rfl, ?_, ?_⟩
  · intro e h
    simp [Observation.json] at h
  · intro s h
    injection h with h2
    exact ⟨h2.symm, by rw [toJson_keys]; decide⟩

/-- Witness for C8 at ("w8", 38.0). -/
theorem C8_all_or_nothing_witness :
    map_temperature_to_fhir "w8" (PyFloat.finite 38)
        = (build_observation "w8" (PyFloat.finite 38)).json 2
  ∧ (∀ e : MapError, (build_observation "w8" (PyFloat.finite 38)).json 2 = .error e →
       map_temperature_to_fhir "w8" (PyFloat.finite 38) = .error e)
  ∧ (∀ s : String, map_temperature_to_fhir "w8" (PyFloat.finite 38) = .ok s →
       s = renderJson 2 0 (build_observation "w8" (PyFloat.finite 38)).toJson
         ∧ (build_observation "w8" (PyFloat.finite 38)).toJson.keys.Perm
             ["resourceType", "status", "category", "code", "subject",
              "valueQuantity"]) :=
  C8_all_or_nothing "w8" (PyFloat.finite 38)

/-- Claim C10: for every input the serialized record carries a
top-level resourceType field equal to "Observation", in addition to
the five fields of the specification's output shape, which are all
present as well. -/
theorem C10_resource_type_field (pid : String) (t : PyFloat) :
    Json.lookup (build_observation pid t).toJson "resourceType"
      = some (Json.jstr "Observation")
  ∧ (Json.lookup (build_observation pid t).toJson "status").isSome = true
  ∧ (Json.lookup (build_observation pid t).toJson "category").isSome = true
  ∧ (Json.lookup (build_observation pid t).toJson "code").isSome = true
  ∧ (Json.lookup (build_observation pid t).toJson "subject").isSome = true
  ∧ (Json.lookup (build_observation pid t).toJson "valueQuantity").isSome = true :=
  ⟨rfl, rfl, rfl, rfl, rfl, rfl⟩

end RNDS
